import Mathlib

/-!
Verification development for the OemHikvision enrollment service.

The development shallowly embeds the two relevant source files:
  - server/services/hikvisionService.js : the Hikvision device client
    (MD5, Digest-challenge parsing, digest response computation, the
    two-phase authenticated request flow, and the five public device
    operations), and
  - the Express server file (enrollment endpoint over the Prisma store:
    validate, transactional persist, best-effort device mirror,
    response assembly) together with its multer file filter.

Machine integers are Nat with explicit reduction modulo 2^32 where the
JavaScript code relies on 32-bit wrapping (inside MD5).  Fallible
operations return Except or option.  Randomness (crypto.randomBytes for
the digest cnonce) and the current date are externalized as explicit
parameters.  HTTP transport is modeled by a Device value giving the
network outcome of the initial unauthenticated request and, as a
function of the Authorization header, of the re-authenticated request.
-/

/-! ## 32-bit arithmetic helpers (JavaScript / MD5 wrapping behaviour) -/

/-- Reduce a natural number modulo 2^32. -/
def u32 (n : Nat) : Nat := n % 4294967296

/-- Addition modulo 2^32. -/
def addu (a b : Nat) : Nat := u32 (a + b)

/-- Bitwise complement within 32 bits (input assumed < 2^32). -/
def notu (x : Nat) : Nat := 4294967295 - x

/-- Rotate a 32-bit value left by s bits. -/
def rotl32 (x s : Nat) : Nat := u32 (x <<< s ||| x >>> (32 - s))

/-! ## MD5 (crypto.createHash('md5'), RFC 1321)

The device client hashes with Node's crypto MD5; we embed MD5 itself so
the digest computation is fully executable.  Messages are lists of
bytes (Nat < 256). -/

/-- The 64 MD5 round constants, floor(2^32 * abs(sin(i+1))). -/
def md5K : List Nat :=
  [0xd76aa478, 0xe8c7b756, 0x242070db, 0xc1bdceee, 0xf57c0faf, 0x4787c62a,
   0xa8304613, 0xfd469501, 0x698098d8, 0x8b44f7af, 0xffff5bb1, 0x895cd7be,
   0x6b901122, 0xfd987193, 0xa679438e, 0x49b40821, 0xf61e2562, 0xc040b340,
   0x265e5a51, 0xe9b6c7aa, 0xd62f105d, 0x02441453, 0xd8a1e681, 0xe7d3fbc8,
   0x21e1cde6, 0xc33707d6, 0xf4d50d87, 0x455a14ed, 0xa9e3e905, 0xfcefa3f8,
   0x676f02d9, 0x8d2a4c8a, 0xfffa3942, 0x8771f681, 0x6d9d6122, 0xfde5380c,
   0xa4beea44, 0x4bdecfa9, 0xf6bb4b60, 0xbebfbc70, 0x289b7ec6, 0xeaa127fa,
   0xd4ef3085, 0x04881d05, 0xd9d4d039, 0xe6db99e5, 0x1fa27cf8, 0xc4ac5665,
   0xf4292244, 0x432aff97, 0xab9423a7, 0xfc93a039, 0x655b59c3, 0x8f0ccc92,
   0xffeff47d, 0x85845dd1, 0x6fa87e4f, 0xfe2ce6e0, 0xa3014314, 0x4e0811a1,
   0xf7537e82, 0xbd3af235, 0x2ad7d2bb, 0xeb86d391]

/-- The per-round left-rotation amounts. -/
def md5S : List Nat :=
  [7, 12, 17, 22, 7, 12, 17, 22, 7, 12, 17, 22, 7, 12, 17, 22,
   5, 9, 14, 20, 5, 9, 14, 20, 5, 9, 14, 20, 5, 9, 14, 20,
   4, 11, 16, 23, 4, 11, 16, 23, 4, 11, 16, 23, 4, 11, 16, 23,
   6, 10, 15, 21, 6, 10, 15, 21, 6, 10, 15, 21, 6, 10, 15, 21]

/-- The MD5 nonlinear round function for step i. -/
def md5F (i b c d : Nat) : Nat :=
  if i < 16 then (b &&& c) ||| (notu b &&& d)
  else if i < 32 then (d &&& b) ||| (notu d &&& c)
  else if i < 48 then b ^^^ c ^^^ d
  else c ^^^ (b ||| notu d)

/-- The MD5 message-word index for step i. -/
def md5g (i : Nat) : Nat :=
  if i < 16 then i
  else if i < 32 then (5 * i + 1) % 16
  else if i < 48 then (3 * i + 5) % 16
  else (7 * i) % 16

/-- One MD5 step: rotate the register file after mixing in word g(i). -/
def md5Step (M : List Nat) (st : Nat × Nat × Nat × Nat) (i : Nat) :
    Nat × Nat × Nat × Nat :=
  let (a, b, c, d) := st
  let f := u32 (md5F i b c d + a + md5K.getD i 0 + M.getD (md5g i) 0)
  (d, addu b (rotl32 f (md5S.getD i 0)), b, c)

/-- Decompose x into k little-endian bytes. -/
def toLEBytes (x k : Nat) : List Nat :=
  (List.range k).map (fun i => x / 256 ^ i % 256)

/-- The 16 little-endian 32-bit words of a 64-byte block. -/
def blockWords (block : List Nat) : List Nat :=
  (List.range 16).map (fun j =>
    block.getD (4 * j) 0 + 256 * block.getD (4 * j + 1) 0 +
    65536 * block.getD (4 * j + 2) 0 + 16777216 * block.getD (4 * j + 3) 0)

/-- MD5 compression of one 64-byte block into the running state. -/
def md5Compress (st : Nat × Nat × Nat × Nat) (block : List Nat) :
    Nat × Nat × Nat × Nat :=
  let M := blockWords block
  let (a0, b0, c0, d0) := st
  let (a, b, c, d) := (List.range 64).foldl (md5Step M) (a0, b0, c0, d0)
  (addu a0 a, addu b0 b, addu c0 c, addu d0 d)

/-- MD5 padding: 0x80, zeros to 56 mod 64, then the 64-bit LE bit length. -/
def md5Pad (msg : List Nat) : List Nat :=
  let n := msg.length
  let z := (120 - (n + 1) % 64) % 64
  msg ++ [128] ++ List.replicate z 0 ++ toLEBytes (n * 8) 8

/-- MD5 digest of a byte list, as 16 bytes. -/
def md5Bytes (msg : List Nat) : List Nat :=
  let padded := md5Pad msg
  let blocks := (List.range (padded.length / 64)).map
    (fun i => (padded.drop (64 * i)).take 64)
  let (a, b, c, d) :=
    blocks.foldl md5Compress (0x67452301, 0xefcdab89, 0x98badcfe, 0x10325476)
  toLEBytes a 4 ++ toLEBytes b 4 ++ toLEBytes c 4 ++ toLEBytes d 4

/-- Lowercase hex digit for n < 16. -/
def hexDigit (n : Nat) : Char :=
  if n < 10 then Char.ofNat (48 + n) else Char.ofNat (87 + n)

/-- Two lowercase hex digits of a byte. -/
def byteToHex (b : Nat) : List Char := [hexDigit (b / 16), hexDigit (b % 16)]

/-- UTF-8 encoding of one character (Node Buffer / hash.update default). -/
def utf8Encode (c : Char) : List Nat :=
  let n := c.toNat
  if n < 128 then [n]
  else if n < 2048 then [192 + n / 64, 128 + n % 64]
  else if n < 65536 then [224 + n / 4096, 128 + n / 64 % 64, 128 + n % 64]
  else [240 + n / 262144, 128 + n / 4096 % 64, 128 + n / 64 % 64, 128 + n % 64]

/-- UTF-8 bytes of a string. -/
def strBytes (s : String) : List Nat := (s.data.map utf8Encode).flatten

/-- The service's md5 helper: hex digest of the UTF-8 bytes of a string
(source: HikvisionService.md5). -/
def md5s (s : String) : String :=
  String.mk (((md5Bytes (strBytes s)).map byteToHex).flatten)

/-! ## Base64 (Buffer.toString('base64')) -/

/-- The base64 alphabet. -/
def b64Alphabet : List Char :=
  "ABCDEFGHIJKLMNOPQRSTUVWXYZabcdefghijklmnopqrstuvwxyz0123456789+/".data

/-- The base64 character of a 6-bit value. -/
def b64Char (n : Nat) : Char := b64Alphabet.getD n (Char.ofNat 65)

/-- Standard base64 encoding with padding, as produced by Node's
Buffer.toString('base64'). -/
def base64Encode : List Nat → String
  | [] => ""
  | [b1] =>
    String.mk [b64Char (b1 / 4), b64Char (b1 % 4 * 16)] ++ "=="
  | [b1, b2] =>
    String.mk [b64Char (b1 / 4), b64Char (b1 % 4 * 16 + b2 / 16),
               b64Char (b2 % 16 * 4)] ++ "="
  | b1 :: b2 :: b3 :: rest =>
    String.mk [b64Char (b1 / 4), b64Char (b1 % 4 * 16 + b2 / 16),
               b64Char (b2 % 16 * 4 + b3 / 64), b64Char (b3 % 64)] ++
    base64Encode rest

/-! ## JavaScript string helpers -/

/-- JavaScript logical-or on a string against a string default: the empty
string is falsy. -/
def jsOrString (a b : String) : String := if a = "" then b else a

/-- JavaScript logical-or where the left side may be null/undefined
(modeled as none) or an empty (falsy) string. -/
def jsOrOpt (x : Option String) (y : String) : String :=
  match x with
  | some s => if s = "" then y else s
  | none => y

/-! ## Digest challenge parsing (parseDigestHeader)

The source matches the global regex (\w+)=["']?([^"',]+)["']? against the
WWW-Authenticate header and collects the group pairs into an object.  We
embed the regex engine's behaviour on exactly this pattern: at each
position try to match a nonempty word-character run, '=', an optional
single or double quote, a nonempty run of characters other than quotes
and commas, and an optional closing quote; on failure advance one
character, on success resume after the match. -/

/-- Word characters of the regex class backslash-w. -/
def isWordChar (c : Char) : Bool := c.isAlpha || c.isDigit || c = '_'

/-- A double or single quote. -/
def isQuoteChar (c : Char) : Bool := c.toNat = 34 || c.toNat = 39

/-- Characters allowed in the value group: anything but quotes and commas. -/
def isValChar (c : Char) : Bool := !(isQuoteChar c || c = ',')

/-- One if the list starts with a quote character, else zero. -/
def quoteCount (l : List Char) : Nat :=
  match l with
  | c :: _ => if isQuoteChar c then 1 else 0
  | [] => 0

/-- Attempt the directive regex at the head of the list.  On success
return the key, the value and the total number of characters consumed. -/
def matchAt (l : List Char) : Option (String × String × Nat) :=
  let w := l.takeWhile isWordChar
  if w = [] then none
  else
    match l.drop w.length with
    | [] => none
    | c :: r2 =>
      if c = '=' then
        let q1 := quoteCount r2
        let r3 := r2.drop q1
        let v := r3.takeWhile isValChar
        if v = [] then none
        else
          let q2 := quoteCount (r3.drop v.length)
          some (String.mk w, String.mk v, w.length + 1 + q1 + v.length + q2)
      else none

/-- Fuel-indexed scan of the whole header, emitting directive pairs in
order; the fuel bounds the number of scanning steps. -/
def scanDirectives : Nat → List Char → List (String × String)
  | 0, _ => []
  | _, [] => []
  | fuel + 1, c :: rest =>
    match matchAt (c :: rest) with
    | some (k, v, n) => (k, v) :: scanDirectives fuel ((c :: rest).drop n)
    | none => scanDirectives fuel rest

/-- Scan a character list with just enough fuel for its length. -/
def parseChars (l : List Char) : List (String × String) :=
  scanDirectives l.length l

/-- Parse a WWW-Authenticate header into its directive pairs
(source: HikvisionService.parseDigestHeader). -/
def parseDigestHeader (s : String) : List (String × String) :=
  parseChars s.data

/-- The double-quote character. -/
def dq : Char := Char.ofNat 34

/-- Render one directive in the quoted attribute-value form key="value". -/
def renderDirective (d : String × String) : List Char :=
  d.1.data ++ '=' :: dq :: d.2.data ++ [dq]

/-- Render a directive list separated by comma-space, as in a Digest
challenge header. -/
def renderDirectives : List (String × String) → List Char
  | [] => []
  | [d] => renderDirective d
  | d :: rest => renderDirective d ++ ',' :: ' ' :: renderDirectives rest

/-- A well-formed directive key: nonempty, all word characters. -/
abbrev GoodKey (k : String) : Prop :=
  k.data ≠ [] ∧ ∀ c ∈ k.data, isWordChar c = true

/-- A well-formed quoted directive value: nonempty, free of quotes and
commas. -/
abbrev GoodVal (v : String) : Prop :=
  v.data ≠ [] ∧ ∀ c ∈ v.data, isValChar c = true

/-- A full challenge header: the Digest scheme tag followed by rendered
directives. -/
def mkChallenge (ds : List (String × String)) : String :=
  String.mk ("Digest ".data ++ renderDirectives ds)

/-- Property access on the parsed digest object: JavaScript object
assignment lets the last match for a key win. -/
def digestGet (entries : List (String × String)) (k : String) : Option String :=
  (entries.reverse.find? (fun e => e.1 == k)).map (fun e => e.2)

/-- Property access defaulting to the string "undefined", matching
JavaScript template interpolation of a missing object property. -/
def digestGetJS (entries : List (String × String)) (k : String) : String :=
  (digestGet entries k).getD "undefined"

/-! ## Digest authorization header (generateDigestAuth)

The cnonce, produced in the source by crypto.randomBytes(16) hex-encoded,
is an explicit parameter.  Missing challenge directives interpolate as
the string "undefined", exactly as JavaScript template literals do. -/

/-- Build the Authorization header value for a parsed Digest challenge
(source: HikvisionService.generateDigestAuth). -/
def generateDigestAuth (username password cnonce method uri : String)
    (digestParams : List (String × String)) : String :=
  let nc := "00000001"
  let realm := digestGetJS digestParams "realm"
  let nonce := digestGetJS digestParams "nonce"
  let qop := digestGetJS digestParams "qop"
  let ha1 := md5s (username ++ ":" ++ realm ++ ":" ++ password)
  let ha2 := md5s (method ++ ":" ++ uri)
  let response :=
    md5s (ha1 ++ ":" ++ nonce ++ ":" ++ nc ++ ":" ++ cnonce ++ ":" ++ qop ++
      ":" ++ ha2)
  "Digest username=\"" ++ username ++ "\", realm=\"" ++ realm ++
    "\", nonce=\"" ++ nonce ++ "\", uri=\"" ++ uri ++ "\", qop=" ++ qop ++
    ", nc=" ++ nc ++ ", cnonce=\"" ++ cnonce ++ "\", response=\"" ++
    response ++ "\""

/-! ## Device transport model

A device call's observable behaviour is the network outcome of the
initial unauthenticated request and, as a function of the Authorization
header value, the outcome of the re-authenticated request.  Request
bodies and other headers do not influence the modeled outcomes. -/

/-- An HTTP response as seen through axios. -/
structure HttpResponse where
  status : Nat
  wwwAuthenticate : Option String
  body : String
deriving DecidableEq, Repr

/-- Outcome of one wire request. -/
inductive NetOutcome where
  | response (r : HttpResponse)
  | connRefused
  | timedOut
  | otherFailure (msg : String)
deriving DecidableEq, Repr

/-- Behaviour of the device across the at-most-two requests of one call. -/
structure Device where
  first : NetOutcome
  second : String → NetOutcome

/-- A thrown JavaScript error as the client code observes it: message,
optional error code, optional attached response status and data. -/
structure JsError where
  message : String
  code : Option String := none
  respStatus : Option Nat := none
  respData : Option String := none
deriving DecidableEq, Repr

/-- Substring test embedding JavaScript String.prototype.includes. -/
def startsWithChars : List Char → List Char → Bool
  | [], _ => true
  | _ :: _, [] => false
  | p :: ps, c :: cs => p == c && startsWithChars ps cs

/-- Substring occurrence test over character lists. -/
def containsSub (pat : List Char) : List Char → Bool
  | [] => pat.isEmpty
  | c :: cs => startsWithChars pat (c :: cs) || containsSub pat cs

/-- JavaScript authHeader.includes('Digest'). -/
def containsDigest (s : String) : Bool := containsSub "Digest".data s.data

/-- Axios message for a status-validation failure. -/
def statusFailureMsg (s : Nat) : String :=
  "Request failed with status code " ++ Nat.repr s

/-- Interpret one network outcome through axios with a given
validateStatus predicate: invalid statuses and network failures throw. -/
def requestOutcome (o : NetOutcome) (validate : Nat → Bool) :
    Except JsError HttpResponse :=
  match o with
  | NetOutcome.response r =>
    if validate r.status then Except.ok r
    else Except.error
      { message := statusFailureMsg r.status, respStatus := some r.status,
        respData := some r.body }
  | NetOutcome.connRefused =>
    Except.error { message := "connect ECONNREFUSED", code := some "ECONNREFUSED" }
  | NetOutcome.timedOut =>
    Except.error { message := "timeout exceeded", code := some "ETIMEDOUT" }
  | NetOutcome.otherFailure m => Except.error { message := m }

/-- validateStatus of the initial request: 401 or 2xx accepted. -/
def validateFirst (status : Nat) : Bool :=
  status == 401 || (200 ≤ status && status < 300)

/-- Default axios validateStatus: 2xx accepted. -/
def validateDefault (status : Nat) : Bool := 200 ≤ status && status < 300

/-- The auth-unsupported error thrown for a missing or non-Digest
challenge. -/
def authUnsupportedMsg : String := "Device does not support Digest authentication"

/-- JavaScript truthiness of the challenge check: the header must be
present, nonempty is implied by containing 'Digest'. -/
def headerHasDigest (w : Option String) : Bool :=
  match w with
  | none => false
  | some h => containsDigest h

/-- Body of the try block of makeAuthenticatedRequest: the two-phase
flow, paired with the number of HTTP requests issued. -/
def tryAuthenticatedRequest (dev : Device) (username password cnonce : String)
    (method endpoint : String) : Except JsError HttpResponse × Nat :=
  match requestOutcome dev.first validateFirst with
  | Except.error e => (Except.error e, 1)
  | Except.ok r =>
    if r.status = 401 then
      if headerHasDigest r.wwwAuthenticate then
        let digestParams :=
          parseDigestHeader (r.wwwAuthenticate.getD "")
        let authHeaderValue :=
          generateDigestAuth username password cnonce method endpoint
            digestParams
        match requestOutcome (dev.second authHeaderValue) validateDefault with
        | Except.error e => (Except.error e, 2)
        | Except.ok r2 => (Except.ok r2, 2)
      else (Except.error { message := authUnsupportedMsg }, 1)
    else (Except.ok r, 1)

/-- The catch clause of makeAuthenticatedRequest: rewrap connection
failures into device-specific messages, rethrow everything else. -/
def applyConnCatch (deviceIP : String) :
    Except JsError HttpResponse × Nat → Except JsError HttpResponse × Nat
  | (Except.error e, n) =>
    if e.code = some "ECONNREFUSED" then
      (Except.error
        { message := "Cannot connect to Hikvision device at " ++ deviceIP }, n)
    else if e.code = some "ETIMEDOUT" then
      (Except.error
        { message := "Connection timeout to Hikvision device at " ++ deviceIP }, n)
    else (Except.error e, n)
  | (Except.ok r, n) => (Except.ok r, n)

/-- Two-phase authenticated request flow
(source: HikvisionService.makeAuthenticatedRequest).  Returns the result
of the call together with the number of HTTP requests issued; deviceIP
feeds the connection-failure messages of the catch clause. -/
def makeAuthenticatedRequest (dev : Device)
    (deviceIP username password cnonce : String)
    (method endpoint : String) : Except JsError HttpResponse × Nat :=
  applyConnCatch deviceIP
    (tryAuthenticatedRequest dev username password cnonce method endpoint)

/-! ## Public device operations

Each public operation wraps the request flow in try/catch and returns a
uniform result object; optional fields model JSON keys that the
corresponding branch does not set. -/

/-- The uniform result envelope returned by every device operation. -/
structure DeviceResult where
  success : Bool
  data : Option String := none
  deviceInfo : Option String := none
  status : Option Nat := none
  message : Option String := none
  error : Option String := none
  details : Option String := none
deriving DecidableEq, Repr

/-- Client configuration drawn from the environment. -/
structure HikConfig where
  deviceIP : String
  username : String
  password : String
deriving DecidableEq, Repr

/-- Test connection to the device (source: testConnection). -/
def testConnection (cfg : HikConfig) (dev : Device) (cnonce : String) :
    DeviceResult :=
  match (makeAuthenticatedRequest dev cfg.deviceIP cfg.username cfg.password
      cnonce "GET" "/ISAPI/System/deviceInfo").1 with
  | Except.ok r =>
    { success := true, deviceInfo := some r.body, status := some r.status }
  | Except.error e =>
    { success := false, error := some e.message, details := e.respData }

/-- Fetch face database information (source: getFaceDatabase). -/
def getFaceDatabase (cfg : HikConfig) (dev : Device) (cnonce : String) :
    DeviceResult :=
  match (makeAuthenticatedRequest dev cfg.deviceIP cfg.username cfg.password
      cnonce "GET" "/ISAPI/Intelligent/FDLib").1 with
  | Except.ok r => { success := true, data := some r.body }
  | Except.error e =>
    { success := false, error := some e.message, details := e.respData }

/-- The vendor-defined enrollment payload. -/
structure FaceData where
  faceLibType : String
  FDID : String
  FPID : String
  name : String
  bornTime : String
  sex : String
  faceURL : String
deriving DecidableEq, Repr

/-- Build the enrollment payload (source: enrollFace, faceData object);
today stands for new Date().toISOString().split('T')[0]. -/
def buildFaceData (personId : Nat) (imageBuffer : List Nat)
    (personName : String) (today : String) : FaceData :=
  { faceLibType := "blackFD"
    FDID := "1"
    FPID := Nat.repr personId
    name := jsOrString personName ("Person_" ++ Nat.repr personId)
    bornTime := today
    sex := "unknown"
    faceURL := "data:image/jpeg;base64," ++ base64Encode imageBuffer }

/-- Enroll a face on the device (source: enrollFace).  The payload is
built but, per the transport model, does not influence the outcome. -/
def enrollFace (cfg : HikConfig) (dev : Device) (cnonce : String)
    (personId : Nat) (imageBuffer : List Nat) (personName : String)
    (today : String) : DeviceResult :=
  let faceData := buildFaceData personId imageBuffer personName today
  match faceData, (makeAuthenticatedRequest dev cfg.deviceIP cfg.username
      cfg.password cnonce "POST" "/ISAPI/Intelligent/FDLib/FDSet").1 with
  | _, Except.ok r =>
    { success := true, data := some r.body, status := some r.status,
      message := some "Face enrolled successfully to Hikvision device" }
  | _, Except.error e =>
    { success := false, error := some e.message, details := e.respData,
      status := e.respStatus }

/-- Delete a face from the device (source: deleteFace). -/
def deleteFace (cfg : HikConfig) (dev : Device) (cnonce : String)
    (personId : Nat) : DeviceResult :=
  match (makeAuthenticatedRequest dev cfg.deviceIP cfg.username cfg.password
      cnonce "DELETE"
      ("/ISAPI/Intelligent/FDLib/FDSet?FDID=1&FPID=" ++ Nat.repr personId)).1 with
  | Except.ok r =>
    { success := true, data := some r.body, status := some r.status,
      message := some "Face deleted successfully from Hikvision device" }
  | Except.error e =>
    { success := false, error := some e.message, details := e.respData,
      status := e.respStatus }

/-- Query device capabilities (source: getDeviceCapabilities). -/
def getDeviceCapabilities (cfg : HikConfig) (dev : Device) (cnonce : String) :
    DeviceResult :=
  match (makeAuthenticatedRequest dev cfg.deviceIP cfg.username cfg.password
      cnonce "GET" "/ISAPI/Intelligent/FDLib/capabilities").1 with
  | Except.ok r => { success := true, data := some r.body }
  | Except.error e =>
    { success := false, error := some e.message, details := e.respData }

/-- The multer fileFilter: accept exactly JPEG and PNG mimetypes. -/
def fileFilter (mimetype : String) : Bool :=
  mimetype == "image/jpeg" || mimetype == "image/png"

/-! ## Relational store model (Prisma schema: per, face, perface)

Rows mirror the Prisma models; nextFaceId models the faces serial
sequence.  The store is the authoritative system of record. -/

/-- A row of the per table. -/
structure Person where
  personaID : Nat
  nombre : Option String
  apellido : Option String
deriving DecidableEq, Repr

/-- A row of the face table. -/
structure Face where
  facialID : Nat
  templateData : List Nat
  activo : Bool
deriving DecidableEq, Repr

/-- A row of the perface junction table. -/
structure PerFace where
  personaID : Nat
  facialID : Nat
deriving DecidableEq, Repr

/-- The relational store. -/
structure Store where
  persons : List Person
  faces : List Face
  links : List PerFace
  nextFaceId : Nat
deriving DecidableEq, Repr

/-- prisma.per.findUnique on personaID. -/
def findPerson (s : Store) (pid : Nat) : Option Person :=
  s.persons.find? (fun p => p.personaID == pid)

/-- Lookup of a face row by primary key. -/
def findFace (s : Store) (fid : Nat) : Option Face :=
  s.faces.find? (fun f => f.facialID == fid)

/-- The enrollment transaction (source: prisma.$transaction block):
deactivate every face currently linked to the person, insert the new
active face holding the raw image bytes, link it, and return the new
face's id together with the updated store.  The linked-face query and
the per-row deactivation are the two named helpers below. -/
def linkedFaceIds (s : Store) (pid : Nat) : List Nat :=
  (s.links.filter (fun l => l.personaID == pid)).map (fun l => l.facialID)

/-- The face.updateMany of the transaction, applied to one row:
deactivate the row when its id is among the person's linked faces. -/
def deactivateFace (faceIds : List Nat) (f : Face) : Face :=
  if faceIds.contains f.facialID then { f with activo := false } else f

/-- The enrollment transaction proper (prisma.$transaction block). -/
def persistEnrollment (s : Store) (pid : Nat) (img : List Nat) :
    Store × Nat :=
  let faceIds := linkedFaceIds s pid
  let faces2 := s.faces.map (deactivateFace faceIds)
  let newId := s.nextFaceId
  ({ persons := s.persons
     faces := faces2 ++ [{ facialID := newId, templateData := img, activo := true }]
     links := s.links ++ [{ personaID := pid, facialID := newId }]
     nextFaceId := newId + 1 }, newId)

/-- prisma.perface.count where personaID matches and the joined face has
activo = false (source: deactivatedCount query). -/
def countInactiveLinks (s : Store) (pid : Nat) : Nat :=
  (s.links.filter (fun l =>
    l.personaID == pid &&
      ((findFace s l.facialID).map (fun f => !f.activo)).getD false)).length

/-- Count of links of a person whose joined face is active. -/
def countActiveLinks (s : Store) (pid : Nat) : Nat :=
  (s.links.filter (fun l =>
    l.personaID == pid &&
      ((findFace s l.facialID).map (fun f => f.activo)).getD false)).length

/-- Count of all links of a person. -/
def countLinks (s : Store) (pid : Nat) : Nat :=
  (s.links.filter (fun l => l.personaID == pid)).length

/-! ## Enrollment endpoint (POST /api/enroll/:personaID) -/

/-- Outcome of the device mirror step as the endpoint observes it: the
device client returned a result envelope, or threw. -/
inductive MirrorOutcome where
  | returned (r : DeviceResult)
  | threw (msg : String)
deriving DecidableEq, Repr

/-- The hikvisionResult binding of the endpoint: the returned envelope,
none when the mirror call threw. -/
def mirrorResultOf : MirrorOutcome → Option DeviceResult
  | MirrorOutcome.returned r => some r
  | MirrorOutcome.threw _ => none

/-- The hikvisionError binding of the endpoint: the envelope's error when
the mirror reported failure, the thrown message when it threw. -/
def mirrorErrorOf : MirrorOutcome → Option String
  | MirrorOutcome.returned r => if r.success then none else r.error
  | MirrorOutcome.threw m => some m

/-- The hikvision sub-result of the enrollment response. -/
structure HikSub where
  success : Bool
  message : String
  error : Option String
deriving DecidableEq, Repr

/-- The JSON response of the enrollment endpoint; fields absent in a
branch are none. -/
structure EnrollResponse where
  statusCode : Nat
  success : Bool := false
  message : Option String := none
  faceId : Option Nat := none
  deactivatedFaces : Option Nat := none
  hikvision : Option HikSub := none
  error : Option String := none
deriving DecidableEq, Repr

/-- The display name sent to the device (source: personName). -/
def mirrorPersonName (persona : Person) (pid : Nat) : String :=
  jsOrString
    (((persona.nombre.getD "") ++ " " ++ (persona.apellido.getD "")).trim)
    ("Person_" ++ Nat.repr pid)

/-- The enrollment endpoint handler.  Inputs: the store, the route
parameter, the uploaded file (none when absent), and the behaviour of
the device mirror call as a function of the display name passed to it.
Returns the updated store, the HTTP response, and the number of device
enrollment calls issued. -/
def enrollHandler (s : Store) (pid : Nat) (file : Option (List Nat))
    (mirror : String → MirrorOutcome) :
    Store × EnrollResponse × Nat :=
  match file with
  | none =>
    (s, { statusCode := 400, error := some "No image file provided" }, 0)
  | some img =>
    match findPerson s pid with
    | none =>
      (s, { statusCode := 404, error := some "Person not found" }, 0)
    | some persona =>
      let pr := persistEnrollment s pid img
      let personName := mirrorPersonName persona pid
      let hikvisionResult := mirrorResultOf (mirror personName)
      let hikvisionError := mirrorErrorOf (mirror personName)
      let deactivatedCount := countInactiveLinks pr.1 pid
      (pr.1,
       { statusCode := 200
         success := true
         message := some "Face enrolled successfully to database"
         faceId := some pr.2
         deactivatedFaces := some deactivatedCount
         hikvision := some
           { success := ((hikvisionResult.map (fun r => r.success)).getD false)
             message := jsOrOpt (hikvisionResult.bind (fun r => r.message))
               (jsOrOpt hikvisionError "Device enrollment failed")
             error := hikvisionError } }, 1)

/-- Store invariants maintained by the schema: the serial sequence is
ahead of every face id, and every link references an existing face row
(foreign key). -/
abbrev StoreWF (s : Store) : Prop :=
  (∀ f ∈ s.faces, f.facialID < s.nextFaceId) ∧
  (∀ l ∈ s.links, ∃ f ∈ s.faces, f.facialID = l.facialID)

/-- Predicate of the uniform result contract: either the operation
succeeded, or it failed carrying an error message. -/
def ResultEnvelopeOk (r : DeviceResult) : Prop :=
  r.success = true ∨ (r.success = false ∧ r.error.isSome = true)

/-- Truth of a failed mirror step: the device client reported failure or
threw. -/
def mirrorFailed : MirrorOutcome → Prop
  | MirrorOutcome.returned r => r.success = false
  | MirrorOutcome.threw _ => True


/-! ## Validation examples (RFC 1321 vectors, base64 vectors, regex traces) -/

set_option maxRecDepth 4000 in
example : md5s "abc" = "900150983cd24fb0d6963f7d28e17f72" := by rfl

set_option maxRecDepth 4000 in
example : md5s "message digest" = "f96b697d7cb7938d525a2f31aaf161d0" := by rfl

example : base64Encode (strBytes "Man") = "TWFu" := by rfl

example : base64Encode (strBytes "Ma") = "TWE=" := by rfl

example : base64Encode (strBytes "hello!") = "aGVsbG8h" := by rfl

example :
    parseDigestHeader "Digest realm=\"IP Camera\", nonce=\"abc123\", qop=\"auth\"" =
      [("realm", "IP Camera"), ("nonce", "abc123"), ("qop", "auth")] := by rfl

example :
    parseDigestHeader "Digest realm=\"a,b\", nonce=\"x\", qop=auth" =
      [("realm", "a"), ("nonce", "x"), ("qop", "auth")] := by rfl

example :
    parseDigestHeader "Digest realm=\"\", nonce=\"x\"" =
      [("nonce", "x")] := by rfl

/-! ## Claim theorems -/

/-- C4.  The digest response is computed as
md5(HA1:nonce:nc:cnonce:qop:HA2) with HA1 = md5(username:realm:password)
and HA2 = md5(method:uri), nc fixed to the string 00000001, the cnonce
(random 16-byte hex in the source) taken per call; and the computation
is deterministic in its inputs: recomputing with the same username,
realm, password, method, uri, nonce, cnonce and qop yields the same
header, hence the same response hash. -/
theorem digest_response_formula_and_deterministic
    (username password cnonce method uri : String)
    (ps : List (String × String)) :
    generateDigestAuth username password cnonce method uri ps =
      "Digest username=\"" ++ username ++ "\", realm=\"" ++
        digestGetJS ps "realm" ++ "\", nonce=\"" ++ digestGetJS ps "nonce" ++
        "\", uri=\"" ++ uri ++ "\", qop=" ++ digestGetJS ps "qop" ++
        ", nc=" ++ "00000001" ++ ", cnonce=\"" ++ cnonce ++
        "\", response=\"" ++
        md5s (md5s (username ++ ":" ++ digestGetJS ps "realm" ++ ":" ++
            password) ++ ":" ++ digestGetJS ps "nonce" ++ ":" ++ "00000001" ++
          ":" ++ cnonce ++ ":" ++ digestGetJS ps "qop" ++ ":" ++
          md5s (method ++ ":" ++ uri)) ++ "\"" ∧
    ∀ u2 p2 c2 m2 uri2 ps2, u2 = username → p2 = password → c2 = cnonce →
      m2 = method → uri2 = uri → ps2 = ps →
      generateDigestAuth u2 p2 c2 m2 uri2 ps2 =
        generateDigestAuth username password cnonce method uri ps := by
  constructor
  · rfl
  · intro u2 p2 c2 m2 uri2 ps2 h1 h2 h3 h4 h5 h6
    subst h1; subst h2; subst h3; subst h4; subst h5; subst h6
    rfl

set_option maxRecDepth 8000 in
/-- C4 witness: concrete evaluation of the digest header, exhibiting the
formula at concrete inputs (hash values computed by the embedded MD5). -/
theorem digest_response_formula_witness :
    (generateDigestAuth "admin" "12345" "0123456789abcdef0123456789abcdef"
        "GET" "/ISAPI/System/deviceInfo"
        [("realm", "IP Camera"), ("nonce", "abc123"), ("qop", "auth")] =
      "Digest username=\"admin\", realm=\"IP Camera\", nonce=\"abc123\"" ++
        ", uri=\"/ISAPI/System/deviceInfo\", qop=auth, nc=00000001" ++
        ", cnonce=\"0123456789abcdef0123456789abcdef\", response=\"" ++
        md5s (md5s "admin:IP Camera:12345" ++
          ":abc123:00000001:0123456789abcdef0123456789abcdef:auth:" ++
          md5s "GET:/ISAPI/System/deviceInfo") ++ "\"") ∧
    generateDigestAuth "admin" "12345" "0123456789abcdef0123456789abcdef"
        "GET" "/ISAPI/System/deviceInfo"
        [("realm", "IP Camera"), ("nonce", "abc123"), ("qop", "auth")] =
      generateDigestAuth "admin" "12345" "0123456789abcdef0123456789abcdef"
        "GET" "/ISAPI/System/deviceInfo"
        [("realm", "IP Camera"), ("nonce", "abc123"), ("qop", "auth")] := by
  obtain ⟨h1, h2⟩ := digest_response_formula_and_deterministic "admin" "12345"
    "0123456789abcdef0123456789abcdef" "GET" "/ISAPI/System/deviceInfo"
    [("realm", "IP Camera"), ("nonce", "abc123"), ("qop", "auth")]
  exact ⟨h1.trans (by rfl), h2 _ _ _ _ _ _ rfl rfl rfl rfl rfl rfl⟩

/-- C9.  The enrollment payload has the seven vendor fields with FPID
the subject id rendered as a string, name falling back to a generated
Person id when the display name is empty, bornTime the current date, sex
the unknown placeholder and faceURL the image bytes re-encoded as a
base64 data URL. -/
theorem enroll_payload_fields (personId : Nat) (imageBuffer : List Nat)
    (personName today : String) :
    (buildFaceData personId imageBuffer personName today).faceLibType =
        "blackFD" ∧
    (buildFaceData personId imageBuffer personName today).FDID = "1" ∧
    (buildFaceData personId imageBuffer personName today).FPID =
        Nat.repr personId ∧
    (personName = "" →
      (buildFaceData personId imageBuffer personName today).name =
        "Person_" ++ Nat.repr personId) ∧
    (personName ≠ "" →
      (buildFaceData personId imageBuffer personName today).name =
        personName) ∧
    (buildFaceData personId imageBuffer personName today).bornTime = today ∧
    (buildFaceData personId imageBuffer personName today).sex = "unknown" ∧
    (buildFaceData personId imageBuffer personName today).faceURL =
      "data:image/jpeg;base64," ++ base64Encode imageBuffer := by
  refine ⟨rfl, rfl, rfl, ?_, ?_, rfl, rfl, rfl⟩
  · intro h; simp [buildFaceData, jsOrString, h]
  · intro h; simp [buildFaceData, jsOrString, h]

/-- C9 witness: the payload at concrete inputs, with the empty display
name taking the generated fallback. -/
theorem enroll_payload_fields_witness :
    (buildFaceData 7 [255, 216, 255] "" "2025-10-11").name = "Person_7" ∧
    (buildFaceData 7 [255, 216, 255] "" "2025-10-11").FPID = "7" ∧
    (buildFaceData 7 [255, 216, 255] "" "2025-10-11").faceURL =
      "data:image/jpeg;base64,/9j/" := by
  obtain ⟨-, -, h3, h4, -, -, -, h8⟩ :=
    enroll_payload_fields 7 [255, 216, 255] "" "2025-10-11"
  exact ⟨h4 rfl, h3.trans (by rfl), h8.trans (by rfl)⟩

/-- C10.  The faceURL always carries the MIME head data:image/jpeg
regardless of the actual image bytes, while the upload filter also
accepts PNG files. -/
theorem faceURL_always_jpeg (personId : Nat) (imageBuffer : List Nat)
    (personName today : String) :
    fileFilter "image/png" = true ∧
    fileFilter "image/jpeg" = true ∧
    ∃ rest, (buildFaceData personId imageBuffer personName today).faceURL =
      "data:image/jpeg;base64," ++ rest :=
  ⟨rfl, rfl, base64Encode imageBuffer, rfl⟩

/-- C7.  Every public device operation returns the uniform result
envelope: a success flag, with an error field populated on failure; in
this total model no device-level failure escapes as an exception. -/
theorem device_ops_return_envelope (cfg : HikConfig) (dev : Device)
    (cnonce : String) (personId : Nat) (imageBuffer : List Nat)
    (personName today : String) :
    ResultEnvelopeOk (testConnection cfg dev cnonce) ∧
    ResultEnvelopeOk (getFaceDatabase cfg dev cnonce) ∧
    ResultEnvelopeOk
      (enrollFace cfg dev cnonce personId imageBuffer personName today) ∧
    ResultEnvelopeOk (deleteFace cfg dev cnonce personId) ∧
    ResultEnvelopeOk (getDeviceCapabilities cfg dev cnonce) := by
  refine ⟨?_, ?_, ?_, ?_, ?_⟩
  · cases h : (makeAuthenticatedRequest dev cfg.deviceIP cfg.username
        cfg.password cnonce "GET" "/ISAPI/System/deviceInfo").1 with
    | error e => right; simp [testConnection, h]
    | ok r => left; simp [testConnection, h]
  · cases h : (makeAuthenticatedRequest dev cfg.deviceIP cfg.username
        cfg.password cnonce "GET" "/ISAPI/Intelligent/FDLib").1 with
    | error e => right; simp [getFaceDatabase, h]
    | ok r => left; simp [getFaceDatabase, h]
  · cases h : (makeAuthenticatedRequest dev cfg.deviceIP cfg.username
        cfg.password cnonce "POST" "/ISAPI/Intelligent/FDLib/FDSet").1 with
    | error e => right; simp [enrollFace, h]
    | ok r => left; simp [enrollFace, h]
  · cases h : (makeAuthenticatedRequest dev cfg.deviceIP cfg.username
        cfg.password cnonce "DELETE"
        ("/ISAPI/Intelligent/FDLib/FDSet?FDID=1&FPID=" ++
          Nat.repr personId)).1 with
    | error e => right; simp [deleteFace, h]
    | ok r => left; simp [deleteFace, h]
  · cases h : (makeAuthenticatedRequest dev cfg.deviceIP cfg.username
        cfg.password cnonce "GET" "/ISAPI/Intelligent/FDLib/capabilities").1 with
    | error e => right; simp [getDeviceCapabilities, h]
    | ok r => left; simp [getDeviceCapabilities, h]

/-- C6.  A 401 whose WWW-Authenticate header is missing or carries no
Digest challenge fails the call with the auth-unsupported error after a
single HTTP request. -/
theorem auth_unsupported_single_request (dev : Device)
    (ip u p cn m ep : String) (w : Option String) (b : String)
    (h1 : dev.first = NetOutcome.response ⟨401, w, b⟩)
    (h2 : headerHasDigest w = false) :
    makeAuthenticatedRequest dev ip u p cn m ep =
      (Except.error { message := authUnsupportedMsg }, 1) := by
  have ht : tryAuthenticatedRequest dev u p cn m ep =
      (Except.error { message := authUnsupportedMsg }, 1) := by
    simp [tryAuthenticatedRequest, requestOutcome, h1, validateFirst, h2]
  rw [makeAuthenticatedRequest, ht]
  rfl

/-- C6 witness: a Basic challenge on 401 yields the auth-unsupported
failure with exactly one request sent. -/
theorem auth_unsupported_single_request_witness :
    makeAuthenticatedRequest
      ⟨NetOutcome.response ⟨401, some "Basic realm=Camera", ""⟩,
        fun _ => NetOutcome.response ⟨200, none, "ok"⟩⟩
      "192.168.1.64" "admin" "12345" "00ff" "GET" "/ISAPI/System/deviceInfo" =
      (Except.error { message := authUnsupportedMsg }, 1) :=
  auth_unsupported_single_request _ _ _ _ _ _ _ _ _ rfl (by rfl)

/-- C8.  Enrolling for a subject id absent from the store responds 404
Person not found, leaves the store untouched and issues no device
call. -/
theorem enroll_nonexistent_subject (s : Store) (pid : Nat)
    (img : List Nat) (mirror : String → MirrorOutcome)
    (h : findPerson s pid = none) :
    enrollHandler s pid (some img) mirror =
      (s, { statusCode := 404, error := some "Person not found" }, 0) := by
  simp [enrollHandler, h]

/-- C8 witness: subject 99 does not exist in a one-person store. -/
theorem enroll_nonexistent_subject_witness :
    enrollHandler
      ⟨[⟨7, some "Juan", some "Perez"⟩], [⟨1, [], true⟩], [⟨7, 1⟩], 2⟩
      99 (some [255, 216]) (fun _ => MirrorOutcome.threw "unreachable") =
      (⟨[⟨7, some "Juan", some "Perez"⟩], [⟨1, [], true⟩], [⟨7, 1⟩], 2⟩,
        { statusCode := 404, error := some "Person not found" }, 0) :=
  enroll_nonexistent_subject _ _ _ _ (by rfl)

/-- The catch clause preserves the number of requests issued. -/
theorem applyConnCatch_count (ip : String)
    (a : Except JsError HttpResponse × Nat) :
    (applyConnCatch ip a).2 = a.2 := by
  rcases a with ⟨res, n⟩
  cases res with
  | error e =>
    simp only [applyConnCatch]
    split
    · rfl
    · split <;> rfl
  | ok r => rfl

/-- The catch clause maps a thrown error to a thrown error. -/
theorem applyConnCatch_error (ip : String)
    (a : Except JsError HttpResponse × Nat) (e : JsError)
    (h : a.1 = Except.error e) :
    ∃ e2, (applyConnCatch ip a).1 = Except.error e2 := by
  rcases a with ⟨res, n⟩
  cases res with
  | error e1 =>
    simp only [applyConnCatch]
    split
    · exact ⟨_, rfl⟩
    · split <;> exact ⟨_, rfl⟩
  | ok r => simp at h

/-- The try block never issues more than two HTTP requests. -/
theorem tryAuthenticatedRequest_count_le (dev : Device)
    (u p cn m ep : String) :
    (tryAuthenticatedRequest dev u p cn m ep).2 ≤ 2 := by
  unfold tryAuthenticatedRequest
  split
  · simp
  · split
    · split
      · dsimp only
        split <;> simp
      · simp
    · simp

/-- C3.  When the initial request draws a 401 with a Digest challenge,
exactly one re-authenticated request is issued (two requests total); no
call ever sends more than two requests; and a second 401 is a final
failure. -/
theorem digest_retry_bounded (dev : Device) (ip u p cn m ep : String)
    (hdr body : String)
    (h1 : dev.first = NetOutcome.response ⟨401, some hdr, body⟩)
    (h2 : containsDigest hdr = true) :
    (makeAuthenticatedRequest dev ip u p cn m ep).2 = 2 ∧
    (∀ dev2 : Device, (makeAuthenticatedRequest dev2 ip u p cn m ep).2 ≤ 2) ∧
    (∀ w2 b2, (∀ a, dev.second a = NetOutcome.response ⟨401, w2, b2⟩) →
      ∃ e, (makeAuthenticatedRequest dev ip u p cn m ep).1 = Except.error e) := by
  refine ⟨?_, ?_, ?_⟩
  · rw [makeAuthenticatedRequest, applyConnCatch_count]
    simp only [tryAuthenticatedRequest, requestOutcome, h1]
    norm_num [validateFirst, headerHasDigest, h2]
    split <;> rfl
  · intro dev2
    rw [makeAuthenticatedRequest, applyConnCatch_count]
    exact tryAuthenticatedRequest_count_le dev2 u p cn m ep
  · intro w2 b2 hsec
    have h3 : (tryAuthenticatedRequest dev u p cn m ep).1 =
        Except.error ⟨statusFailureMsg 401, none, some 401, some b2⟩ := by
      simp only [tryAuthenticatedRequest, requestOutcome, h1, hsec]
      norm_num [validateFirst, headerHasDigest, h2, validateDefault]
    exact applyConnCatch_error ip _ _ h3

/-- C3 witness: a device answering 401 with a Digest challenge and again
401 to the re-authenticated request: two requests, final failure. -/
theorem digest_retry_bounded_witness :
    ((makeAuthenticatedRequest
        ⟨NetOutcome.response ⟨401, some "Digest realm=\"C\", nonce=\"n1\", qop=auth", ""⟩,
          fun _ => NetOutcome.response ⟨401, none, "denied"⟩⟩
        "192.168.1.64" "admin" "12345" "00ff" "GET" "/x").2 = 2) ∧
    ((makeAuthenticatedRequest
        ⟨NetOutcome.response ⟨401, some "Digest realm=\"C\", nonce=\"n1\", qop=auth", ""⟩,
          fun _ => NetOutcome.response ⟨401, none, "denied"⟩⟩
        "192.168.1.64" "admin" "12345" "00ff" "GET" "/x").2 ≤ 2) ∧
    ∃ e, (makeAuthenticatedRequest
        ⟨NetOutcome.response ⟨401, some "Digest realm=\"C\", nonce=\"n1\", qop=auth", ""⟩,
          fun _ => NetOutcome.response ⟨401, none, "denied"⟩⟩
        "192.168.1.64" "admin" "12345" "00ff" "GET" "/x").1 = Except.error e := by
  obtain ⟨ha, hb, hc⟩ := digest_retry_bounded
    ⟨NetOutcome.response ⟨401, some "Digest realm=\"C\", nonce=\"n1\", qop=auth", ""⟩,
      fun _ => NetOutcome.response ⟨401, none, "denied"⟩⟩
    "192.168.1.64" "admin" "12345" "00ff" "GET" "/x"
    "Digest realm=\"C\", nonce=\"n1\", qop=auth" "" rfl (by rfl)
  exact ⟨ha, hb _, hc none "denied" (fun a => rfl)⟩

/-- A JavaScript string-or chain never yields an empty string when its
final default is nonempty. -/
theorem jsOrOpt_ne_empty (x : Option String) (y : String) (hy : y ≠ "") :
    jsOrOpt x y ≠ "" := by
  unfold jsOrOpt
  cases x with
  | none => exact hy
  | some s =>
    by_cases h : s = ""
    · simpa [h] using hy
    · simp [h]

/-- Evaluation of the enrollment handler on the success path: the store
becomes the post-transaction store and the response is assembled from
the mirror outcome. -/
theorem enrollHandler_found (s : Store) (pid : Nat) (img : List Nat)
    (persona : Person) (mirror : String → MirrorOutcome)
    (hp : findPerson s pid = some persona) :
    enrollHandler s pid (some img) mirror =
      ((persistEnrollment s pid img).1,
       { statusCode := 200
         success := true
         message := some "Face enrolled successfully to database"
         faceId := some (persistEnrollment s pid img).2
         deactivatedFaces :=
           some (countInactiveLinks (persistEnrollment s pid img).1 pid)
         hikvision := some
           { success := (((mirrorResultOf
               (mirror (mirrorPersonName persona pid))).map
                 (fun r => r.success)).getD false)
             message := jsOrOpt ((mirrorResultOf
               (mirror (mirrorPersonName persona pid))).bind
                 (fun r => r.message))
               (jsOrOpt (mirrorErrorOf (mirror (mirrorPersonName persona pid)))
                 "Device enrollment failed")
             error := mirrorErrorOf (mirror (mirrorPersonName persona pid)) } },
       1) := by
  simp [enrollHandler, hp]

/-- C1.  When the persist step commits, a failing device mirror never
undoes the store write: the final store equals the post-transaction
store, the response reports the primary success, and the device outcome
appears as a hikvision sub-result with success false and a nonempty
message. -/
theorem mirror_failure_preserves_persist (s : Store) (pid : Nat)
    (img : List Nat) (persona : Person) (mirror : String → MirrorOutcome)
    (hp : findPerson s pid = some persona)
    (hm : ∀ nm, mirrorFailed (mirror nm)) :
    (enrollHandler s pid (some img) mirror).1 =
      (persistEnrollment s pid img).1 ∧
    (enrollHandler s pid (some img) mirror).2.1.statusCode = 200 ∧
    (enrollHandler s pid (some img) mirror).2.1.success = true ∧
    (enrollHandler s pid (some img) mirror).2.2 = 1 ∧
    ∃ sub, (enrollHandler s pid (some img) mirror).2.1.hikvision = some sub ∧
      sub.success = false ∧ sub.message ≠ "" := by
  rw [enrollHandler_found s pid img persona mirror hp]
  refine ⟨rfl, rfl, rfl, rfl, _, rfl, ?_, ?_⟩
  · have hfail := hm (mirrorPersonName persona pid)
    cases hmo : mirror (mirrorPersonName persona pid) with
    | returned r =>
      rw [hmo] at hfail
      simp only [mirrorFailed] at hfail
      simp [mirrorResultOf, hfail]
    | threw msg => simp [mirrorResultOf]
  · exact jsOrOpt_ne_empty _ _ (jsOrOpt_ne_empty _ _ (by simp))

/-- C1 witness: subject 7 exists, the mirror throws (device unreachable);
the store keeps the committed enrollment and the response pairs primary
success with a failed hikvision sub-result. -/
theorem mirror_failure_preserves_persist_witness :
    ((enrollHandler ⟨[⟨7, some "Juan", none⟩], [], [], 1⟩ 7 (some [1, 2])
        (fun _ => MirrorOutcome.threw "connect ECONNREFUSED")).1 =
      (persistEnrollment ⟨[⟨7, some "Juan", none⟩], [], [], 1⟩ 7 [1, 2]).1) ∧
    ((enrollHandler ⟨[⟨7, some "Juan", none⟩], [], [], 1⟩ 7 (some [1, 2])
        (fun _ => MirrorOutcome.threw "connect ECONNREFUSED")).2.1.success =
      true) ∧
    ∃ sub, (enrollHandler ⟨[⟨7, some "Juan", none⟩], [], [], 1⟩ 7 (some [1, 2])
        (fun _ => MirrorOutcome.threw "connect ECONNREFUSED")).2.1.hikvision =
      some sub ∧ sub.success = false ∧ sub.message ≠ "" := by
  obtain ⟨h1, h2, h3, h4, h5⟩ := mirror_failure_preserves_persist
    ⟨[⟨7, some "Juan", none⟩], [], [], 1⟩ 7 [1, 2] ⟨7, some "Juan", none⟩
    (fun _ => MirrorOutcome.threw "connect ECONNREFUSED")
    (by rfl) (fun nm => trivial)
  exact ⟨h1, h3, h5⟩

/-- A successful regex match consumes at least one character. -/
theorem matchAt_pos (l : List Char) (k v : String) (n : Nat)
    (h : matchAt l = some (k, v, n)) : 1 ≤ n := by
  simp only [matchAt] at h
  split at h
  · exact absurd h (by simp)
  · split at h
    · exact absurd h (by simp)
    · split at h
      · split at h
        · exact absurd h (by simp)
        · simp only [Option.some.injEq, Prod.mk.injEq] at h
          omega
      · exact absurd h (by simp)

/-- The scan result does not depend on the fuel, as long as the fuel
covers the list length. -/
theorem scanDirectives_fuel (f1 : Nat) : ∀ (f2 : Nat) (l : List Char),
    l.length ≤ f1 → l.length ≤ f2 →
    scanDirectives f1 l = scanDirectives f2 l := by
  induction f1 with
  | zero =>
    intro f2 l h1 _
    have hl : l = [] := List.eq_nil_of_length_eq_zero (Nat.le_zero.mp h1)
    subst hl
    cases f2 <;> rfl
  | succ f ih =>
    intro f2 l h1 h2
    cases l with
    | nil => cases f2 <;> rfl
    | cons c rest =>
      cases f2 with
      | zero => simp at h2
      | succ f2b =>
        simp only [scanDirectives]
        cases hm : matchAt (c :: rest) with
        | none =>
          simp only [List.length_cons] at h1 h2
          exact ih f2b rest (by omega) (by omega)
        | some kvn =>
          obtain ⟨k, v, n⟩ := kvn
          have hn := matchAt_pos _ _ _ _ hm
          simp only [List.length_cons] at h1 h2
          have hlen : ((c :: rest).drop n).length ≤ f := by
            simp only [List.length_drop, List.length_cons]
            omega
          have hlen2 : ((c :: rest).drop n).length ≤ f2b := by
            simp only [List.length_drop, List.length_cons]
            omega
          simp only [ih f2b _ hlen hlen2]

/-- A failed match at the head advances the scan by one character. -/
theorem parseChars_cons_skip (c : Char) (l : List Char)
    (h : matchAt (c :: l) = none) :
    parseChars (c :: l) = parseChars l := by
  unfold parseChars
  simp only [List.length_cons, scanDirectives, h]

/-- The regex cannot match at a non-word character. -/
theorem matchAt_none_nonword (c : Char) (l : List Char)
    (h : isWordChar c = false) : matchAt (c :: l) = none := by
  simp [matchAt, List.takeWhile_cons, h]

/-- The regex cannot match at a word run followed by a space. -/
theorem matchAt_none_word_space (w : List Char)
    (hw : ∀ c ∈ w, isWordChar c = true) (r : List Char) :
    matchAt (w ++ ' ' :: r) = none := by
  have hsp : isWordChar ' ' = false := by decide
  have htw : (w ++ ' ' :: r).takeWhile isWordChar = w := by
    rw [List.takeWhile_append_of_pos hw, List.takeWhile_cons, hsp]
    simp
  simp only [matchAt, htw]
  split
  · rfl
  · rw [List.drop_left]
    simp

/-- Scanning skips a word run followed by a space. -/
theorem parseChars_skip_word_space (w : List Char)
    (hw : ∀ c ∈ w, isWordChar c = true) (r : List Char) :
    parseChars (w ++ ' ' :: r) = parseChars r := by
  induction w with
  | nil =>
    simpa using parseChars_cons_skip ' ' r (matchAt_none_nonword ' ' r rfl)
  | cons c ct ih =>
    have hm : matchAt ((c :: ct) ++ ' ' :: r) = none :=
      matchAt_none_word_space (c :: ct) hw r
    rw [List.cons_append] at hm ⊢
    rw [parseChars_cons_skip c _ hm]
    exact ih (fun x hx => hw x (List.mem_cons_of_mem _ hx))

/-- The regex matches exactly one rendered directive at the head,
whatever follows it. -/
theorem matchAt_render (k v : String) (r : List Char)
    (hk : GoodKey k) (hv : GoodVal v) :
    matchAt (renderDirective (k, v) ++ r) =
      some (k, v, k.data.length + 1 + 1 + v.data.length + 1) := by
  have hlist : renderDirective (k, v) ++ r =
      k.data ++ '=' :: dq :: (v.data ++ dq :: r) := by
    simp [renderDirective, List.append_assoc]
  have hwsp : isWordChar '=' = false := by decide
  have hvq : isValChar dq = false := by decide
  have hq1 : ∀ X : List Char, quoteCount (dq :: X) = 1 := fun X => rfl
  have hmk : ∀ t : String, String.mk t.data = t := fun t => rfl
  have htw : (k.data ++ '=' :: dq :: (v.data ++ dq :: r)).takeWhile
      isWordChar = k.data := by
    rw [List.takeWhile_append_of_pos hk.2, List.takeWhile_cons, hwsp]
    simp
  have htv : (v.data ++ dq :: r).takeWhile isValChar = v.data := by
    rw [List.takeWhile_append_of_pos hv.2, List.takeWhile_cons, hvq]
    simp
  rw [hlist]
  simp only [matchAt, htw]
  rw [if_neg hk.1, List.drop_left]
  simp only [hq1, htv, List.drop_one, List.tail_cons, List.drop_left,
    reduceIte, if_neg hv.1, hmk]

/-- Scanning a rendered directive consumes it exactly and continues with
the remainder. -/
theorem parseChars_render_cons (k v : String) (r : List Char)
    (hk : GoodKey k) (hv : GoodVal v) :
    parseChars (renderDirective (k, v) ++ r) = (k, v) :: parseChars r := by
  obtain ⟨kc, kt, hkdata⟩ : ∃ kc kt, k.data = kc :: kt := by
    cases hkd : k.data with
    | nil => exact absurd hkd hk.1
    | cons a t => exact ⟨a, t, rfl⟩
  have hshape : renderDirective (k, v) ++ r =
      kc :: (kt ++ '=' :: dq :: (v.data ++ dq :: r)) := by
    simp [renderDirective, hkdata, List.append_assoc]
  have hm : matchAt (kc :: (kt ++ '=' :: dq :: (v.data ++ dq :: r))) =
      some (k, v, k.data.length + 1 + 1 + v.data.length + 1) := by
    rw [← hshape]
    exact matchAt_render k v r hk hv
  have hlen : (renderDirective (k, v)).length =
      k.data.length + 1 + 1 + v.data.length + 1 := by
    simp [renderDirective]
    omega
  have hdrop : (kc :: (kt ++ '=' :: dq :: (v.data ++ dq :: r))).drop
      (k.data.length + 1 + 1 + v.data.length + 1) = r := by
    rw [← hshape]
    exact List.drop_left' hlen
  rw [show parseChars (renderDirective (k, v) ++ r) =
    parseChars (kc :: (kt ++ '=' :: dq :: (v.data ++ dq :: r))) from by
      rw [hshape]]
  unfold parseChars
  simp only [List.length_cons, scanDirectives, hm, hdrop]
  congr 1
  apply scanDirectives_fuel
  · simp
    omega
  · exact Nat.le_refl _

/-- Scanning a comma-space separated rendered directive list recovers
the list exactly when all keys are word runs and all values are free of
quotes and commas. -/
theorem parseChars_renderDirectives : ∀ (ds : List (String × String)),
    (∀ d ∈ ds, GoodKey d.1 ∧ GoodVal d.2) →
    parseChars (renderDirectives ds) = ds := by
  intro ds
  induction ds with
  | nil => intro _; rfl
  | cons d rest ih =>
    obtain ⟨k0, v0⟩ := d
    intro h
    obtain ⟨hk, hv⟩ := h (k0, v0) (List.mem_cons_self _ rest)
    cases rest with
    | nil =>
      have hone := parseChars_render_cons k0 v0 [] hk hv
      rw [List.append_nil] at hone
      exact hone
    | cons d2 rest2 =>
      have hskip : parseChars (',' :: ' ' :: renderDirectives (d2 :: rest2)) =
          parseChars (renderDirectives (d2 :: rest2)) := by
        rw [parseChars_cons_skip ',' _ (matchAt_none_nonword ',' _ (by decide)),
            parseChars_cons_skip ' ' _ (matchAt_none_nonword ' ' _ (by decide))]
      have hmain := parseChars_render_cons k0 v0
        (',' :: ' ' :: renderDirectives (d2 :: rest2)) hk hv
      have hih := ih (fun x hx => h x (List.mem_cons_of_mem _ hx))
      show parseChars (renderDirective (k0, v0) ++
        ',' :: ' ' :: renderDirectives (d2 :: rest2)) = (k0, v0) :: d2 :: rest2
      rw [hmain, hskip, hih]

/-- C5 corrected.  For challenge headers in the attribute-value grammar
whose directive keys are word runs and whose quoted values are nonempty
and free of quotes and commas, the parser extracts every directive with
its exact value; in particular the realm, nonce and qop directives are
recovered exactly.  (Values containing commas are truncated at the
comma and empty quoted values are dropped; see the counterexample.) -/
theorem digest_header_parse_exact (ds : List (String × String))
    (realmV nonceV qopV : String)
    (hds : ∀ d ∈ ds, GoodKey d.1 ∧ GoodVal d.2)
    (hr : GoodVal realmV) (hn : GoodVal nonceV) (hq : GoodVal qopV) :
    parseDigestHeader (mkChallenge ds) = ds ∧
    digestGet (parseDigestHeader (mkChallenge
      [("realm", realmV), ("nonce", nonceV), ("qop", qopV)])) "realm" =
        some realmV ∧
    digestGet (parseDigestHeader (mkChallenge
      [("realm", realmV), ("nonce", nonceV), ("qop", qopV)])) "nonce" =
        some nonceV ∧
    digestGet (parseDigestHeader (mkChallenge
      [("realm", realmV), ("nonce", nonceV), ("qop", qopV)])) "qop" =
        some qopV := by
  have hgen : ∀ (es : List (String × String)),
      (∀ d ∈ es, GoodKey d.1 ∧ GoodVal d.2) →
      parseDigestHeader (mkChallenge es) = es := by
    intro es hes
    show parseChars ("Digest".data ++ ' ' :: renderDirectives es) = es
    rw [parseChars_skip_word_space "Digest".data (by decide)]
    exact parseChars_renderDirectives es hes
  have hds3 : ∀ d ∈ [("realm", realmV), ("nonce", nonceV), ("qop", qopV)],
      GoodKey d.1 ∧ GoodVal d.2 := by
    intro d hd
    simp only [List.mem_cons, List.not_mem_nil, or_false] at hd
    rcases hd with rfl | rfl | rfl
    · exact ⟨(by decide : GoodKey "realm"), hr⟩
    · exact ⟨(by decide : GoodKey "nonce"), hn⟩
    · exact ⟨(by decide : GoodKey "qop"), hq⟩
  have h3 := hgen _ hds3
  refine ⟨hgen ds hds, ?_, ?_, ?_⟩ <;> rw [h3] <;> rfl

/-- C5 counterexample.  On a quoted value containing a comma the parser
truncates at the comma, and an empty quoted value is dropped entirely,
contradicting the claim for such headers. -/
theorem digest_header_parse_counterexample :
    digestGet (parseDigestHeader
      "Digest realm=\"a,b\", nonce=\"x\", qop=\"auth\"") "realm" =
        some "a" ∧
    some "a" ≠ some "a,b" ∧
    digestGet (parseDigestHeader "Digest realm=\"\", nonce=\"x\"") "realm" =
      none :=
  ⟨rfl, by decide, rfl⟩

/-- C5 witness: a concrete well-formed challenge whose realm value holds
a space is recovered exactly. -/
theorem digest_header_parse_exact_witness :
    parseDigestHeader (mkChallenge
      [("realm", "IP Camera"), ("nonce", "abc123"), ("qop", "auth")]) =
      [("realm", "IP Camera"), ("nonce", "abc123"), ("qop", "auth")] ∧
    digestGet (parseDigestHeader (mkChallenge
      [("realm", "IP Camera"), ("nonce", "abc123"), ("qop", "auth")]))
      "realm" = some "IP Camera" := by
  obtain ⟨h1, h2, h3, h4⟩ := digest_header_parse_exact
    [("realm", "IP Camera"), ("nonce", "abc123"), ("qop", "auth")]
    "IP Camera" "abc123" "auth" (by decide) (by decide) (by decide) (by decide)
  exact ⟨h1, h2⟩

/-- Rows passing a condition split into those passing p and those
passing q, when p and q are complementary on rows passing the
condition. -/
theorem length_filter_partition {α : Type} (c p q : α → Bool) :
    ∀ l : List α, (∀ a ∈ l, c a = true → p a = !q a) →
      (l.filter (fun a => c a && p a)).length +
        (l.filter (fun a => c a && q a)).length = (l.filter c).length := by
  intro l
  induction l with
  | nil => intro _; rfl
  | cons a t ih =>
    intro h
    have ht := ih (fun x hx hc => h x (List.mem_cons_of_mem _ hx) hc)
    by_cases hc : c a = true
    · have hpq := h a (List.mem_cons_self a t) hc
      by_cases hq : q a = true
      · have hp : p a = false := by rw [hpq, hq]; rfl
        simp only [List.filter_cons, hc, hp, hq]
        simp
        omega
      · have hq2 : q a = false := by revert hq; cases q a <;> simp
        have hp : p a = true := by rw [hpq, hq2]; rfl
        simp only [List.filter_cons, hc, hp, hq2]
        simp
        omega
    · have hc2 : c a = false := by revert hc; cases c a <;> simp
      simp only [List.filter_cons, hc2]
      simp
      omega

/-- Deactivating a face row keeps its id. -/
theorem deactivateFace_id (ids : List Nat) (f : Face) :
    (deactivateFace ids f).facialID = f.facialID := by
  unfold deactivateFace
  split <;> rfl

/-- Face lookup after the transaction: search the deactivated old rows,
then the new row. -/
theorem findFace_persist_map (s : Store) (pid : Nat) (img : List Nat)
    (fid : Nat) :
    findFace (persistEnrollment s pid img).1 fid =
      ((s.faces.find? (fun f => f.facialID == fid)).map
        (deactivateFace (linkedFaceIds s pid))).or
      (([({ facialID := s.nextFaceId, templateData := img, activo := true } :
        Face)]).find? (fun f => f.facialID == fid)) := by
  unfold findFace persistEnrollment
  simp only
  rw [List.find?_append, List.find?_map]
  have hcomp : ((fun f : Face => f.facialID == fid) ∘
      deactivateFace (linkedFaceIds s pid)) =
      (fun f : Face => f.facialID == fid) := by
    funext f
    simp [Function.comp, deactivateFace_id]
  rw [hcomp]

/-- After the transaction, every face previously linked to the person is
present and inactive. -/
theorem findFace_persist_old (s : Store) (pid : Nat) (img : List Nat)
    (fid : Nat) (hmem : fid ∈ linkedFaceIds s pid)
    (hfk : ∃ f ∈ s.faces, f.facialID = fid) :
    ∃ f, findFace (persistEnrollment s pid img).1 fid = some f ∧
      f.activo = false := by
  obtain ⟨f0, hf0m, hf0i⟩ := hfk
  have hsome : (s.faces.find? (fun f => f.facialID == fid)).isSome := by
    rw [List.find?_isSome]
    exact ⟨f0, hf0m, by simp [hf0i]⟩
  obtain ⟨f1, hf1⟩ := Option.isSome_iff_exists.mp hsome
  have hf1id : f1.facialID = fid := by
    have := List.find?_some hf1
    simpa using this
  rw [findFace_persist_map, hf1]
  refine ⟨deactivateFace (linkedFaceIds s pid) f1, by simp, ?_⟩
  have hcont : (linkedFaceIds s pid).contains f1.facialID = true := by
    rw [hf1id]
    exact List.elem_iff.mpr hmem
  unfold deactivateFace
  rw [if_pos hcont]

/-- After the transaction, the new face row is found and active. -/
theorem findFace_persist_new (s : Store) (pid : Nat) (img : List Nat)
    (hw : StoreWF s) :
    findFace (persistEnrollment s pid img).1 s.nextFaceId =
      some { facialID := s.nextFaceId, templateData := img, activo := true } := by
  rw [findFace_persist_map]
  have hnone : s.faces.find? (fun f => f.facialID == s.nextFaceId) = none := by
    rw [List.find?_eq_none]
    intro f hf
    have hb := hw.1 f hf
    simp
    omega
  rw [hnone]
  simp [List.find?]

/-- After the transaction, the inactive-face link count of the person
equals the person's total pre-transaction link count: every previously
linked face is now inactive and the single new link is active. -/
theorem countInactive_after_persist (s : Store) (pid : Nat) (img : List Nat)
    (hw : StoreWF s) :
    countInactiveLinks (persistEnrollment s pid img).1 pid =
      countLinks s pid := by
  have hlinks : (persistEnrollment s pid img).1.links =
      s.links ++ [{ personaID := pid, facialID := s.nextFaceId }] := rfl
  unfold countInactiveLinks countLinks
  rw [hlinks, List.filter_append]
  have hnew : List.filter (fun l : PerFace =>
      l.personaID == pid &&
        ((findFace (persistEnrollment s pid img).1 l.facialID).map
          (fun f => !f.activo)).getD false)
      ([{ personaID := pid, facialID := s.nextFaceId }] : List PerFace) = [] := by
    simp [List.filter, findFace_persist_new s pid img hw]
  rw [hnew, List.append_nil]
  congr 1
  apply List.filter_congr
  intro l hl
  by_cases hpid : (l.personaID == pid) = true
  · have hmem : l.facialID ∈ linkedFaceIds s pid := by
      unfold linkedFaceIds
      exact List.mem_map.mpr ⟨l, List.mem_filter.mpr ⟨hl, hpid⟩, rfl⟩
    obtain ⟨f, hf, hfa⟩ :=
      findFace_persist_old s pid img l.facialID hmem (hw.2 l hl)
    rw [hf] at *
    simp [hpid, hf, hfa]
  · have hpid2 : (l.personaID == pid) = false := by
      revert hpid; cases l.personaID == pid <;> simp
    simp [hpid2]

/-- After the transaction, exactly one link of the person joins an
active face: the newly inserted one. -/
theorem countActive_after_persist (s : Store) (pid : Nat) (img : List Nat)
    (hw : StoreWF s) :
    countActiveLinks (persistEnrollment s pid img).1 pid = 1 := by
  have hlinks : (persistEnrollment s pid img).1.links =
      s.links ++ [{ personaID := pid, facialID := s.nextFaceId }] := rfl
  unfold countActiveLinks
  rw [hlinks, List.filter_append]
  have hold : List.filter (fun l : PerFace =>
      l.personaID == pid &&
        ((findFace (persistEnrollment s pid img).1 l.facialID).map
          (fun f => f.activo)).getD false) s.links = [] := by
    rw [List.filter_eq_nil_iff]
    intro l hl
    by_cases hpid : (l.personaID == pid) = true
    · have hmem : l.facialID ∈ linkedFaceIds s pid := by
        unfold linkedFaceIds
        exact List.mem_map.mpr ⟨l, List.mem_filter.mpr ⟨hl, hpid⟩, rfl⟩
      obtain ⟨f, hf, hfa⟩ :=
        findFace_persist_old s pid img l.facialID hmem (hw.2 l hl)
      simp [hpid, hf, hfa]
    · have hpid2 : (l.personaID == pid) = false := by
        revert hpid; cases l.personaID == pid <;> simp
      simp [hpid2]
  rw [hold]
  simp [List.filter, findFace_persist_new s pid img hw]

/-- In a well-formed store, a person's links split exactly into those
joining an active face and those joining an inactive face. -/
theorem countLinks_partition (s : Store) (pid : Nat) (hw : StoreWF s) :
    countActiveLinks s pid + countInactiveLinks s pid = countLinks s pid := by
  unfold countActiveLinks countInactiveLinks countLinks
  apply length_filter_partition
  intro l hl _
  obtain ⟨f0, hf0m, hf0i⟩ := hw.2 l hl
  have hsome : (s.faces.find? (fun f => f.facialID == l.facialID)).isSome := by
    rw [List.find?_isSome]
    exact ⟨f0, hf0m, by simp [hf0i]⟩
  obtain ⟨f1, hf1⟩ := Option.isSome_iff_exists.mp hsome
  unfold findFace
  rw [hf1]
  simp

/-- C2 corrected.  A successful enrollment deactivates exactly the
subject's previously active faces and inserts exactly one new active
linked face: afterwards exactly 1 linked face is active and all N+I
previously linked faces (N active, I previously inactive) are inactive.
The response's deactivatedFaces field, however, counts all inactive
linked faces after the transaction, so it equals N+I — the total number
of previously linked faces — and equals N only when the subject had no
previously inactive linked face. -/
theorem enroll_deactivation_counts (s : Store) (pid : Nat) (img : List Nat)
    (persona : Person) (mirror : String → MirrorOutcome)
    (hw : StoreWF s) (hp : findPerson s pid = some persona) :
    (enrollHandler s pid (some img) mirror).2.1.deactivatedFaces =
      some (countActiveLinks s pid + countInactiveLinks s pid) ∧
    countActiveLinks (persistEnrollment s pid img).1 pid = 1 ∧
    countInactiveLinks (persistEnrollment s pid img).1 pid =
      countActiveLinks s pid + countInactiveLinks s pid ∧
    (enrollHandler s pid (some img) mirror).2.1.success = true ∧
    (countInactiveLinks s pid = 0 →
      (enrollHandler s pid (some img) mirror).2.1.deactivatedFaces =
        some (countActiveLinks s pid)) := by
  have hd : countInactiveLinks (persistEnrollment s pid img).1 pid =
      countActiveLinks s pid + countInactiveLinks s pid :=
    (countInactive_after_persist s pid img hw).trans
      (countLinks_partition s pid hw).symm
  have he := enrollHandler_found s pid img persona mirror hp
  refine ⟨?_, countActive_after_persist s pid img hw, hd, ?_, ?_⟩
  · rw [he]
    exact congrArg some hd
  · rw [he]
  · intro h0
    rw [he]
    exact (congrArg some hd).trans (by simp [h0])

/-- C2 counterexample.  Subject 7 has exactly 1 previously active face
and 1 previously inactive face; enrolling reports deactivatedFaces = 2,
not the 1 the claim requires. -/
theorem deactivated_count_mismatch :
    countActiveLinks
      ⟨[⟨7, some "Ana", none⟩], [⟨1, [9], true⟩, ⟨2, [9], false⟩],
        [⟨7, 1⟩, ⟨7, 2⟩], 3⟩ 7 = 1 ∧
    (enrollHandler
      ⟨[⟨7, some "Ana", none⟩], [⟨1, [9], true⟩, ⟨2, [9], false⟩],
        [⟨7, 1⟩, ⟨7, 2⟩], 3⟩ 7 (some [5])
      (fun _ => MirrorOutcome.threw "device unreachable")).2.1.deactivatedFaces
      = some 2 ∧
    (2 : Nat) ≠ 1 :=
  ⟨rfl, rfl, by decide⟩

/-- C2 witness: the spec's own scenario — subject 7 with 2 active faces,
device unreachable — where the amended statement gives deactivatedFaces
= 2 and one active face after. -/
theorem enroll_deactivation_counts_witness :
    (enrollHandler
      ⟨[⟨7, some "Ana", none⟩], [⟨1, [9], true⟩, ⟨2, [9], true⟩],
        [⟨7, 1⟩, ⟨7, 2⟩], 3⟩ 7 (some [5])
      (fun _ => MirrorOutcome.threw "device unreachable")).2.1.deactivatedFaces
      = some 2 ∧
    countActiveLinks (persistEnrollment
      ⟨[⟨7, some "Ana", none⟩], [⟨1, [9], true⟩, ⟨2, [9], true⟩],
        [⟨7, 1⟩, ⟨7, 2⟩], 3⟩ 7 [5]).1 7 = 1 := by
  obtain ⟨h1, h2, h3, h4, h5⟩ := enroll_deactivation_counts
    ⟨[⟨7, some "Ana", none⟩], [⟨1, [9], true⟩, ⟨2, [9], true⟩],
      [⟨7, 1⟩, ⟨7, 2⟩], 3⟩ 7 [5] ⟨7, some "Ana", none⟩
    (fun _ => MirrorOutcome.threw "device unreachable") (by decide) rfl
  exact ⟨h1.trans (by rfl), h2⟩
